import Mathlib

/-!
Verification of the orchestration layer of `backend/app/main.py`
(FastAPI application bootstrap): middleware composition, lifespan
startup/shutdown sequencing, and the health/metrics/SPA endpoints.

Modelling conventions:
- fallible Python operations (psutil reads, database probes, service
  calls) become `Except String` values supplied through an environment
  record, so a theorem quantifying over the environment covers every
  combination of succeeding and failing operations;
- each `try/except` block in the source becomes a `match` on the
  corresponding `Except` value;
- times and percentages are modelled with `Nat` (the claims under
  scrutiny never depend on fractional values).
-/

namespace AichatbotMain

/-- The middleware classes registered on the application in
`backend/app/main.py` (lines 203-227), plus none others. -/
inductive MiddlewareName where
  | cors
  | trustedHost
  | enterprise
  | errorHandling
  | securityEnhancement
  | multiTenant
  | rateLimit
  deriving DecidableEq, Repr

/-- Starlette semantics of `app.add_middleware`: the new entry is
inserted at index 0 of `user_middleware`.  When the stack is built the
list is wrapped from its tail inward, so index 0 is the OUTERMOST user
middleware: the middleware added last processes a request first. -/
def addMiddleware (stack : List MiddlewareName) (m : MiddlewareName) : List MiddlewareName :=
  m :: stack

/-- The `user_middleware` list produced by `backend/app/main.py`
lines 203-227, head = outermost.  Registration order in the source:
CORS; TrustedHost (only when not DEBUG); Enterprise; ErrorHandling;
SecurityEnhancement; MultiTenant; finally `app.middleware("http")`
wraps `rate_limit_middleware`, which also calls `add_middleware`. -/
def userMiddlewareStack (debug : Bool) : List MiddlewareName :=
  let s1 := addMiddleware [] MiddlewareName.cors
  let s2 := if debug then s1 else addMiddleware s1 MiddlewareName.trustedHost
  let s3 := addMiddleware s2 MiddlewareName.enterprise
  let s4 := addMiddleware s3 MiddlewareName.errorHandling
  let s5 := addMiddleware s4 MiddlewareName.securityEnhancement
  let s6 := addMiddleware s5 MiddlewareName.multiTenant
  addMiddleware s6 MiddlewareName.rateLimit

/-- The four pipeline stages named by the specification claim. -/
def claimStages : List MiddlewareName :=
  [MiddlewareName.errorHandling, MiddlewareName.securityEnhancement,
   MiddlewareName.multiTenant, MiddlewareName.rateLimit]

/-- The order, outermost first, in which the four claim stages wrap a
request (the remaining registered middleware and route dispatch sit
among and below them). -/
def pipelineOrderOf (debug : Bool) : List MiddlewareName :=
  (userMiddlewareStack debug).filter (fun m => claimStages.contains m)

/-- Did an `Except`-modelled operation raise? -/
def readFails {α : Type} (r : Except String α) : Bool :=
  match r with
  | Except.error _ => true
  | Except.ok _ => false

/-- The initialization steps a startup pass can attempt
(`lifespan`, lines 75-131, and `startup_event`, lines 245-281). -/
inductive StartupAction where
  | setStartTime
  | tracingInit
  | databaseInit
  | enterpriseInit
  deriving DecidableEq, Repr

/-- Environment of a startup pass: the availability flags computed
when the module loads, and the outcome each subsystem initializer
would have if invoked.  `enterprise_init` stands for the whole enterprise block of
`lifespan` (initialize_all_services, observability, event streams,
chaos experiments), which the source wraps in a single `try`. -/
structure StartupEnv where
  tracing_available : Bool
  enable_tracing : Bool
  tracing_init : Except String Unit
  database_available : Bool
  database_init : Except String Unit
  enterprise_available : Bool
  enterprise_init : Except String Unit
  deriving Repr

/-- Result of a startup pass: which initializers were attempted (in
order), which error messages were logged, and whether the pass ran to
completion without propagating an exception. -/
structure StartupOutcome where
  attempted : List StartupAction
  logged_errors : List String
  completed : Bool
  deriving DecidableEq, Repr

/-- The startup half of `lifespan` (`backend/app/main.py` lines 75-131):
sets `app.state.start_time`, then tracing, database and enterprise
initialization, each guarded by its availability flag and wrapped in its
own `try/except` that logs and continues. -/
def lifespanStartup (env : StartupEnv) : StartupOutcome :=
  let tracing :=
    if env.tracing_available && env.enable_tracing then
      match env.tracing_init with
      | Except.ok _ => ([StartupAction.tracingInit], [])
      | Except.error e =>
          ([StartupAction.tracingInit], ["Tracing initialization failed: " ++ e])
    else ([], [])
  let database :=
    if env.database_available then
      match env.database_init with
      | Except.ok _ => ([StartupAction.databaseInit], [])
      | Except.error e =>
          ([StartupAction.databaseInit], ["Database initialization failed: " ++ e])
    else ([], [])
  let enterprise :=
    if env.enterprise_available then
      match env.enterprise_init with
      | Except.ok _ => ([StartupAction.enterpriseInit], [])
      | Except.error e =>
          ([StartupAction.enterpriseInit], ["Enterprise service initialization failed: " ++ e])
    else ([], [])
  { attempted := [StartupAction.setStartTime] ++ tracing.1 ++ database.1 ++ enterprise.1
    logged_errors := tracing.2 ++ database.2 ++ enterprise.2
    completed := true }

/-- The legacy `startup_event` hook (`backend/app/main.py` lines
245-281).  Unlike `lifespan`, it calls `init_database()` with NO
surrounding `try`, so a database failure propagates and aborts the rest
of the hook; tracing (guarded only by availability) and enterprise
initialization are each wrapped in `try/except`.  Returns the attempted
actions and the propagated exception, if any. -/
def startupEvent (env : StartupEnv) : List StartupAction × Option String :=
  match env.database_available, env.database_init with
  | true, Except.error e => ([StartupAction.databaseInit], some e)
  | dbAvail, _ =>
    let db := if dbAvail then [StartupAction.databaseInit] else []
    let tracing := if env.tracing_available then [StartupAction.tracingInit] else []
    let enterprise := if env.enterprise_available then [StartupAction.enterpriseInit] else []
    (db ++ tracing ++ enterprise, none)

/-- Which initializers a startup pass attempts, as a function of the
availability flags alone — the point being that the set of attempts is
independent of which initializers fail. -/
def expectedStartupAttempts (tr en db ent : Bool) : List StartupAction :=
  [StartupAction.setStartTime]
    ++ (if tr && en then [StartupAction.tracingInit] else [])
    ++ (if db then [StartupAction.databaseInit] else [])
    ++ (if ent then [StartupAction.enterpriseInit] else [])

/-- The shutdown hooks the lifespan teardown can attempt
(`backend/app/main.py` lines 134-150). -/
inductive ShutdownAction where
  | enterpriseShutdown
  | dbCleanup
  deriving DecidableEq, Repr

/-- Environment of the shutdown pass: availability flag and outcome of
each hook.  `db_cleanup` covers the `db_manager` import plus
`db_manager.cleanup()`, which share one `try`. -/
structure ShutdownEnv where
  enterprise_available : Bool
  enterprise_shutdown : Except String Unit
  db_cleanup : Except String Unit
  deriving Repr

/-- Result of the shutdown pass. -/
structure ShutdownOutcome where
  attempted : List ShutdownAction
  logged_errors : List String
  deriving DecidableEq, Repr

/-- The shutdown half of `lifespan` (`backend/app/main.py` lines
134-150): enterprise shutdown first (reverse of the init order, guarded
by availability, in `try/except`), then database cleanup (in its own
`try/except`, attempted unconditionally). -/
def lifespanShutdown (senv : ShutdownEnv) : ShutdownOutcome :=
  let enterprise :=
    if senv.enterprise_available then
      match senv.enterprise_shutdown with
      | Except.ok _ => ([ShutdownAction.enterpriseShutdown], [])
      | Except.error e =>
          ([ShutdownAction.enterpriseShutdown], ["Enterprise service shutdown failed: " ++ e])
    else ([], [])
  let db :=
    match senv.db_cleanup with
    | Except.ok _ => ([ShutdownAction.dbCleanup], [])
    | Except.error e => ([ShutdownAction.dbCleanup], ["Database cleanup failed: " ++ e])
  { attempted := enterprise.1 ++ db.1
    logged_errors := enterprise.2 ++ db.2 }

/-- Concrete shutdown environment: enterprise enabled, its shutdown hook
raising, database cleanup succeeding. -/
def shutdownEnvW : ShutdownEnv :=
  { enterprise_available := true
    enterprise_shutdown := Except.error "boom"
    db_cleanup := Except.ok () }

/-- Concrete startup environment in which every subsystem is available
and every initializer succeeds. -/
def startupEnvBoth : StartupEnv :=
  { tracing_available := true
    enable_tracing := true
    tracing_init := Except.ok ()
    database_available := true
    database_init := Except.ok ()
    enterprise_available := true
    enterprise_init := Except.ok () }

/-- Environment of one `GET /health` request (`backend/app/main.py`
lines 359-395): the clock, whether `app.state.start_time` was set, the
outcome of reading `settings.ENVIRONMENT` inside the outer `try` (the
internal read whose failure exercises the catch-all), the database
probe (covering the `db_manager` import and `check_connection()`), the
enterprise flag and the service probe (whose successful payload,
`service_health` at key `services`, is opaque here), and the time each
of the two awaited probes takes. -/
structure HealthEnv where
  now : Nat
  start_time : Option Nat
  environment : Except String String
  utcnow : String
  db_check : Except String Bool
  enterprise_available : Bool
  service_check : Except String String
  db_probe_duration : Nat
  service_probe_duration : Nat
  deriving Repr

/-- The JSON object `GET /health` returns on its success path; the
`services` field is `none` when the key is absent (enterprise services
unavailable). -/
structure HealthReport where
  status : String
  timestamp : String
  version : String
  environment : String
  uptime_seconds : Nat
  database : String
  services : Option String
  deriving DecidableEq, Repr

/-- A `GET /health` response: either the report or the catch-all
`status unhealthy / timestamp / error` payload. -/
inductive HealthResponse where
  | report (r : HealthReport)
  | unhealthy (timestamp : String) (error : String)
  deriving DecidableEq, Repr

/-- Is the response the full report (rather than the catch-all)? -/
def HealthResponse.isReport : HealthResponse → Bool
  | HealthResponse.report _ => true
  | HealthResponse.unhealthy _ _ => false

/-- The `database` field (`main.py` lines 372-377): "healthy" or
"unhealthy" from the probe result, or "not_available: " plus the error
text when the probe raises. -/
def databaseFieldOf (db_check : Except String Bool) : String :=
  match db_check with
  | Except.ok true => "healthy"
  | Except.ok false => "unhealthy"
  | Except.error e => "not_available: " ++ e

/-- The `services` field (`main.py` lines 380-385): present only when
enterprise services are available; the probe payload on success, or
"error: " plus the error text when the probe raises. -/
def servicesFieldOf (enterprise_available : Bool) (service_check : Except String String) :
    Option String :=
  if enterprise_available then
    match service_check with
    | Except.ok v => some v
    | Except.error e => some ("error: " ++ e)
  else none

/-- The uptime computed at `main.py` line 368: `time.time() -
app.state.start_time` when the attribute exists, else 0. -/
def uptimeOf (start_time : Option Nat) (now : Nat) : Nat :=
  match start_time with
  | some t => now - t
  | none => 0

/-- The `GET /health` handler (`main.py` lines 359-395).  The outer
`try` covers building the base dict; a failure there (modelled by the
`environment` read raising) lands in the catch-all, which answers with
the unhealthy payload.  The database and service probes sit in inner
`try/except` blocks whose failures only set fields. -/
def health_check (henv : HealthEnv) : HealthResponse :=
  match henv.environment with
  | Except.error e => HealthResponse.unhealthy henv.utcnow e
  | Except.ok envName =>
      HealthResponse.report
        { status := "healthy"
          timestamp := henv.utcnow
          version := "1.0.0"
          environment := envName
          uptime_seconds := uptimeOf henv.start_time henv.now
          database := databaseFieldOf henv.db_check
          services := servicesFieldOf henv.enterprise_available henv.service_check }

/-- Time the `GET /health` handler spends on probes: the handler awaits
`db_manager.check_connection()` and only afterwards awaits
`health_check_all_services()` — one coroutine, sequential awaits, no
timeout wrapper anywhere — so the durations add. -/
def health_check_duration (henv : HealthEnv) : Nat :=
  henv.db_probe_duration +
    (if henv.enterprise_available then henv.service_probe_duration else 0)

/-- Modelled from the spec claim (for comparison, not from the source):
were the two probes launched concurrently, each bounded by an
independent per-probe timeout, the aggregation would finish with the
longest truncated probe. -/
def specConcurrentAggregateDuration (timeout dbDur svcDur : Nat) : Nat :=
  max (min dbDur timeout) (min svcDur timeout)

/-- Concrete health environment whose internal environment read raises. -/
def healthEnvErr : HealthEnv :=
  { now := 100
    start_time := some 40
    environment := Except.error "boom"
    utcnow := "t0"
    db_check := Except.ok true
    enterprise_available := true
    service_check := Except.ok "all-ok"
    db_probe_duration := 1
    service_probe_duration := 1 }

/-- Concrete health environment on the success path, with both probes
failing and no start time recorded, probes taking 7 and 5 time units. -/
def healthEnvOk : HealthEnv :=
  { now := 100
    start_time := none
    environment := Except.ok "production"
    utcnow := "t1"
    db_check := Except.error "db down"
    enterprise_available := true
    service_check := Except.error "svc down"
    db_probe_duration := 7
    service_probe_duration := 5 }

/-- Result of `psutil.virtual_memory()`. -/
structure MemInfo where
  total : Nat
  available : Nat
  percent : Nat
  deriving DecidableEq, Repr

/-- Result of `psutil.disk_usage("/")`. -/
structure DiskInfo where
  total : Nat
  used : Nat
  deriving DecidableEq, Repr

/-- Result of `process.memory_info()`. -/
structure ProcMemInfo where
  rss : Nat
  vms : Nat
  deriving DecidableEq, Repr

/-- Environment of one `GET /metrics` request (`main.py` lines
409-452): the outcome of each psutil read, the process stats read
during dict construction, whether `app.state.start_time` exists, the
clock and the timestamp string. -/
structure MetricsEnv where
  cpu_percent : Except String Nat
  virtual_memory : Except String MemInfo
  disk_usage : Except String DiskInfo
  process_memory : Except String ProcMemInfo
  proc_cpu_percent : Except String Nat
  num_threads : Except String Nat
  start_time : Option Nat
  now : Nat
  utcnow : String
  deriving Repr

/-- The full snapshot `GET /metrics` returns on its success path
(`metrics_data`, `main.py` lines 422-442). -/
structure MetricsData where
  system_cpu_percent : Nat
  system_memory_total : Nat
  system_memory_available : Nat
  system_memory_percent : Nat
  system_disk_total : Nat
  system_disk_used : Nat
  system_disk_percent : Nat
  process_memory_rss : Nat
  process_memory_vms : Nat
  process_cpu_percent : Nat
  process_num_threads : Nat
  app_uptime_seconds : Nat
  app_environment : String
  timestamp : String
  deriving DecidableEq, Repr

/-- A `GET /metrics` response: the snapshot, or the catch-all payload
with fields `error` = "metrics_collection_failed", `message` and
`timestamp` (`main.py` lines 446-452).  Both are plain dict returns,
hence HTTP 200. -/
inductive MetricsResponse where
  | snapshot (data : MetricsData)
  | failure (message : String) (timestamp : String)
  deriving DecidableEq, Repr

/-- Is the response the full snapshot (rather than the error payload)? -/
def MetricsResponse.isSnapshot : MetricsResponse → Bool
  | MetricsResponse.snapshot _ => true
  | MetricsResponse.failure _ _ => false

/-- The body of the `try` block of `GET /metrics`, in source order: cpu,
memory and disk reads (lines 414-416), process memory (line 420), then,
while building `metrics_data`: the disk-percent division (line 430,
raising on a zero total), the process cpu and thread reads (lines
435-436), and the unguarded `app.state.start_time` read (line 439,
raising when the attribute was never set).  The first raise aborts the
whole block. -/
def metricsBody (environment : String) (env : MetricsEnv) : Except String MetricsData :=
  match env.cpu_percent with
  | Except.error e => Except.error e
  | Except.ok cpu =>
  match env.virtual_memory with
  | Except.error e => Except.error e
  | Except.ok memory =>
  match env.disk_usage with
  | Except.error e => Except.error e
  | Except.ok disk =>
  match env.process_memory with
  | Except.error e => Except.error e
  | Except.ok pmem =>
  if disk.total = 0 then Except.error "float division by zero"
  else
  match env.proc_cpu_percent with
  | Except.error e => Except.error e
  | Except.ok pcpu =>
  match env.num_threads with
  | Except.error e => Except.error e
  | Except.ok nthreads =>
  match env.start_time with
  | none => Except.error "State object has no attribute start_time"
  | some t =>
      Except.ok
        { system_cpu_percent := cpu
          system_memory_total := memory.total
          system_memory_available := memory.available
          system_memory_percent := memory.percent
          system_disk_total := disk.total
          system_disk_used := disk.used
          system_disk_percent := disk.used * 100 / disk.total
          process_memory_rss := pmem.rss
          process_memory_vms := pmem.vms
          process_cpu_percent := pcpu
          process_num_threads := nthreads
          app_uptime_seconds := env.now - t
          app_environment := environment
          timestamp := env.utcnow }

/-- The `GET /metrics` handler: the snapshot when the `try` block
succeeds, otherwise the `except` branch's error payload carrying the
exception text. -/
def metrics (environment : String) (env : MetricsEnv) : MetricsResponse :=
  match metricsBody environment env with
  | Except.ok d => MetricsResponse.snapshot d
  | Except.error m => MetricsResponse.failure m env.utcnow

/-- Does some individual resource read of the `GET /metrics` handler
fail?  Covers the four psutil reads, the two process stats reads, and
the zero-total disk division; the missing start time is a separate,
application-level condition (claim C10). -/
def someResourceReadFails (env : MetricsEnv) : Bool :=
  readFails env.cpu_percent || readFails env.virtual_memory ||
  readFails env.disk_usage || readFails env.process_memory ||
  readFails env.proc_cpu_percent || readFails env.num_threads ||
  (match env.disk_usage with
   | Except.ok d => d.total == 0
   | Except.error _ => false)

/-- Concrete metrics environment in which only the CPU read fails. -/
def metricsEnvCpuFail : MetricsEnv :=
  { cpu_percent := Except.error "cpu read failed"
    virtual_memory := Except.ok { total := 16, available := 8, percent := 50 }
    disk_usage := Except.ok { total := 100, used := 40 }
    process_memory := Except.ok { rss := 3, vms := 5 }
    proc_cpu_percent := Except.ok 2
    num_threads := Except.ok 4
    start_time := some 10
    now := 110
    utcnow := "t2" }

/-- Concrete metrics environment in which every read succeeds but
`app.state.start_time` was never set. -/
def metricsEnvNoStart : MetricsEnv :=
  { cpu_percent := Except.ok 1
    virtual_memory := Except.ok { total := 16, available := 8, percent := 50 }
    disk_usage := Except.ok { total := 100, used := 40 }
    process_memory := Except.ok { rss := 3, vms := 5 }
    proc_cpu_percent := Except.ok 2
    num_threads := Except.ok 4
    start_time := none
    now := 110
    utcnow := "t3" }

/-- A response of the SPA fallback route: a 404 with a detail string,
or a `FileResponse` serving the given file. -/
inductive SpaResponse where
  | notFound (detail : String)
  | fileResponse (path : String)
  deriving DecidableEq, Repr

/-- Python's `str.startswith`: the characters of `pre` are an initial
segment of the characters of `s`. -/
def strStartsWith (s pre : String) : Bool :=
  pre.data.isPrefixOf s.data

/-- The catch-all `GET /full_path` handler `serve_spa` (`main.py` lines
341-356): 404 for paths starting with "api/", "docs" or "redoc";
otherwise `static/index.html` when that file exists, else 404. -/
def serve_spa (full_path : String) (index_exists : Bool) : SpaResponse :=
  if strStartsWith full_path "api/" || strStartsWith full_path "docs" ||
      strStartsWith full_path "redoc" then
    SpaResponse.notFound "Not found"
  else if index_exists then
    SpaResponse.fileResponse "static/index.html"
  else
    SpaResponse.notFound "Frontend not available"

/-- A value of the `GET /health/simple` JSON object. -/
inductive SimpleValue where
  | str (s : String)
  | bool (b : Bool)
  deriving DecidableEq, Repr

/-- The `GET /health/simple` handler (`main.py` lines 398-406), as the
ordered key/value pairs of the dict it returns. -/
def simple_health_check (environment : String) (utcnow : String) (railway_env : Bool) :
    List (String × SimpleValue) :=
  [("status", SimpleValue.str "healthy"),
   ("environment", SimpleValue.str environment),
   ("timestamp", SimpleValue.str utcnow),
   ("railway", SimpleValue.bool railway_env)]

end AichatbotMain

namespace AichatbotMain

/-- C1 counterexample: in the production configuration (DEBUG = false)
the four named stages do not wrap requests in the claimed outer-to-inner
order error boundary, security enhancement, multi-tenant, rate limit. -/
theorem pipeline_order_claimed_sequence_false :
    pipelineOrderOf false ≠
      [MiddlewareName.errorHandling, MiddlewareName.securityEnhancement,
       MiddlewareName.multiTenant, MiddlewareName.rateLimit] := by
  decide

/-- C1 (amended): in both configurations the assembled pipeline wraps
every inbound request with the four named stages in outer-to-inner order
admission control (rate limiting), then multi-tenant resolution, then
security enhancement, then error boundary, then route dispatch — the
reverse of the claimed order, because Starlette makes the middleware
added last the outermost. -/
theorem pipeline_order_actual (debug : Bool) :
    pipelineOrderOf debug =
      [MiddlewareName.rateLimit, MiddlewareName.multiTenant,
       MiddlewareName.securityEnhancement, MiddlewareName.errorHandling] := by
  cases debug <;> decide

/-- C4: the `lifespan` startup pass always runs to completion, and the
set and order of attempted initializers depend only on the availability
flags — for every combination of failing initializers, each enabled
subsystem after a failing one is still initialized and the process does
not crash. -/
theorem startup_continues_on_any_failure (env : StartupEnv) :
    (lifespanStartup env).completed = true ∧
    (lifespanStartup env).attempted =
      expectedStartupAttempts env.tracing_available env.enable_tracing
        env.database_available env.enterprise_available := by
  cases env with
  | mk tr en ti db di ent ei =>
    refine ⟨rfl, ?_⟩
    cases ti <;> cases di <;> cases ei <;>
      cases tr <;> cases en <;> cases db <;> cases ent <;> rfl

/-- C3: the `lifespan` shutdown pass attempts every enabled hook exactly
once, enterprise shutdown before database cleanup (the reverse of the
init order), independently of the hooks' outcomes — so a failing
enterprise shutdown never prevents database cleanup — and a hook error
is recorded in the log. -/
theorem shutdown_every_hook_once (senv : ShutdownEnv) :
    (lifespanShutdown senv).attempted =
      (if senv.enterprise_available then [ShutdownAction.enterpriseShutdown] else [])
        ++ [ShutdownAction.dbCleanup] ∧
    (∀ e, senv.enterprise_available = true →
      senv.enterprise_shutdown = Except.error e →
      ("Enterprise service shutdown failed: " ++ e) ∈ (lifespanShutdown senv).logged_errors) := by
  cases senv with
  | mk ent es dc =>
    constructor
    · cases ent <;> cases es <;> cases dc <;> rfl
    · intro e hent herr
      cases hent
      cases herr
      cases dc <;> simp [lifespanShutdown]

/-- C3 witness: at a concrete environment whose enterprise shutdown hook
raises, both hooks are attempted in order and the error is logged. -/
theorem shutdown_every_hook_once_witness :
    (lifespanShutdown shutdownEnvW).attempted =
      (if shutdownEnvW.enterprise_available then [ShutdownAction.enterpriseShutdown] else [])
        ++ [ShutdownAction.dbCleanup] ∧
    ("Enterprise service shutdown failed: " ++ "boom") ∈ (lifespanShutdown shutdownEnvW).logged_errors :=
  ⟨(shutdown_every_hook_once shutdownEnvW).1,
   (shutdown_every_hook_once shutdownEnvW).2 "boom" rfl rfl⟩

/-- C5: in a startup where both lifecycle mechanisms fire (the lifespan
startup and the legacy `startup_event` hook), with database and
enterprise services available and the database initializer succeeding,
the database initializer and the enterprise service manager's
initialize_all_services are each invoked twice. -/
theorem both_mechanisms_double_initialization (env : StartupEnv)
    (hdb : env.database_available = true)
    (hent : env.enterprise_available = true)
    (hok : env.database_init = Except.ok ()) :
    ((lifespanStartup env).attempted ++ (startupEvent env).1).count
        StartupAction.databaseInit = 2 ∧
    ((lifespanStartup env).attempted ++ (startupEvent env).1).count
        StartupAction.enterpriseInit = 2 := by
  cases env with
  | mk tr en ti db di ent ei =>
    cases hdb
    cases hent
    cases hok
    cases ti <;> cases ei <;> cases tr <;> cases en <;>
      exact ⟨rfl, rfl⟩

/-- C5 witness: concrete double initialization when both mechanisms fire
on a fully available, fully succeeding environment. -/
theorem both_mechanisms_double_initialization_witness :
    ((lifespanStartup startupEnvBoth).attempted ++ (startupEvent startupEnvBoth).1).count
        StartupAction.databaseInit = 2 ∧
    ((lifespanStartup startupEnvBoth).attempted ++ (startupEvent startupEnvBoth).1).count
        StartupAction.enterpriseInit = 2 :=
  both_mechanisms_double_initialization startupEnvBoth rfl rfl rfl

/-- C2 counterexample: when only the CPU read fails, the `/metrics`
response is not a snapshot carrying an error marker on the affected
field — the whole snapshot is replaced by the error payload. -/
theorem metrics_partial_snapshot_false :
    (metrics "production" metricsEnvCpuFail).isSnapshot = false ∧
    metrics "production" metricsEnvCpuFail =
      MetricsResponse.failure "cpu read failed" "t2" :=
  ⟨rfl, rfl⟩

/-- C2 (amended): when some individual resource read fails, `/metrics`
still answers with a 200-returning body, but that body is the
`error/message/timestamp` payload replacing the entire snapshot — no
partial snapshot with a per-field marker is produced. -/
theorem metrics_read_failure_error_payload (environment : String) (env : MetricsEnv)
    (h : someResourceReadFails env = true) :
    (metrics environment env).isSnapshot = false := by
  cases env with
  | mk cpu vm du pm pcp nt st now ut =>
    cases cpu with
    | error e => rfl
    | ok c =>
      cases vm with
      | error e => rfl
      | ok m =>
        cases du with
        | error e => rfl
        | ok d =>
          cases pm with
          | error e => rfl
          | ok p =>
            by_cases hd : d.total = 0
            · simp [metrics, metricsBody, hd, MetricsResponse.isSnapshot]
            · cases pcp with
              | error e => simp [metrics, metricsBody, hd, MetricsResponse.isSnapshot]
              | ok q =>
                cases nt with
                | error e => simp [metrics, metricsBody, hd, MetricsResponse.isSnapshot]
                | ok r =>
                  cases st with
                  | none => simp [metrics, metricsBody, hd, MetricsResponse.isSnapshot]
                  | some t =>
                    exfalso
                    simp [someResourceReadFails, readFails, hd] at h

/-- C2 witness: at the concrete environment whose CPU read fails the
hypothesis holds and the response is the error payload. -/
theorem metrics_read_failure_error_payload_witness :
    someResourceReadFails metricsEnvCpuFail = true ∧
    (metrics "production" metricsEnvCpuFail).isSnapshot = false :=
  ⟨by decide,
   metrics_read_failure_error_payload "production" metricsEnvCpuFail (by decide)⟩

/-- C6: `GET /health` always returns a response: when the internal
read inside the outer `try` raises, the body is the
`status unhealthy / timestamp / error` payload; otherwise the body is
the full report in which database and service probe failures appear
only as field values (via `databaseFieldOf` and `servicesFieldOf`),
never as raised exceptions. -/
theorem health_always_responds (henv : HealthEnv) :
    (∀ e, henv.environment = Except.error e →
      health_check henv = HealthResponse.unhealthy henv.utcnow e) ∧
    (∀ s, henv.environment = Except.ok s →
      health_check henv = HealthResponse.report
        { status := "healthy", timestamp := henv.utcnow, version := "1.0.0",
          environment := s,
          uptime_seconds := uptimeOf henv.start_time henv.now,
          database := databaseFieldOf henv.db_check,
          services := servicesFieldOf henv.enterprise_available henv.service_check }) := by
  constructor
  · intro e he
    simp [health_check, he]
  · intro s hs
    simp [health_check, hs]

/-- C6 witness: concrete internal failure yields the unhealthy payload;
a concrete request with both probes failing yields a report carrying
the failures as fields. -/
theorem health_always_responds_witness :
    health_check healthEnvErr = HealthResponse.unhealthy "t0" "boom" ∧
    health_check healthEnvOk = HealthResponse.report
      { status := "healthy", timestamp := "t1", version := "1.0.0",
        environment := "production", uptime_seconds := 0,
        database := "not_available: db down",
        services := some ("error: svc down") } :=
  ⟨(health_always_responds healthEnvErr).1 "boom" rfl,
   ((health_always_responds healthEnvOk).2 "production" rfl).trans (by decide)⟩

/-- C7: the SPA fallback answers 404 for every path starting with
"api/", "docs" or "redoc"; for every other path it serves
`static/index.html` when that file exists and answers 404 when it does
not. -/
theorem spa_fallback_routing (full_path : String) (index_exists : Bool) :
    ((strStartsWith full_path "api/" || strStartsWith full_path "docs" ||
        strStartsWith full_path "redoc") = true →
      serve_spa full_path index_exists = SpaResponse.notFound "Not found") ∧
    ((strStartsWith full_path "api/" || strStartsWith full_path "docs" ||
        strStartsWith full_path "redoc") = false → index_exists = true →
      serve_spa full_path index_exists = SpaResponse.fileResponse "static/index.html") ∧
    ((strStartsWith full_path "api/" || strStartsWith full_path "docs" ||
        strStartsWith full_path "redoc") = false → index_exists = false →
      serve_spa full_path index_exists = SpaResponse.notFound "Frontend not available") := by
  refine ⟨?_, ?_, ?_⟩
  · intro h
    simp [serve_spa, h]
  · intro h hidx
    simp [serve_spa, h, hidx]
  · intro h hidx
    simp [serve_spa, h, hidx]

/-- C7 witness: the three branches at concrete paths. -/
theorem spa_fallback_routing_witness :
    serve_spa "api/chat" true = SpaResponse.notFound "Not found" ∧
    serve_spa "dashboard" true = SpaResponse.fileResponse "static/index.html" ∧
    serve_spa "dashboard" false = SpaResponse.notFound "Frontend not available" :=
  ⟨(spa_fallback_routing "api/chat" true).1 (by decide),
   (spa_fallback_routing "dashboard" true).2.1 (by decide) rfl,
   (spa_fallback_routing "dashboard" false).2.2 (by decide) rfl⟩

/-- C8 counterexample: the `/health/simple` payload is not the
three-field object status/environment/timestamp. -/
theorem simple_health_fields_claim_false :
    (simple_health_check "production" "t4" false).map Prod.fst ≠
      ["status", "environment", "timestamp"] := by
  decide

/-- C8 (amended): for every request `/health/simple` returns exactly
the four fields status, environment, timestamp, railway, in that
order. -/
theorem simple_health_fields_actual (environment utcnow : String) (railway_env : Bool) :
    (simple_health_check environment utcnow railway_env).map Prod.fst =
      ["status", "environment", "timestamp", "railway"] :=
  rfl

/-- C9 counterexample: with probe durations 7 and 5 the handler's probe
phase takes 12 — more than the 7 that concurrent probes under any
per-probe timeout of at least their durations would take — so a single
probe delays the whole aggregation by its full duration; and the failed
database probe is reported as an error string, not as unknown-timeout. -/
theorem health_probe_concurrency_claim_false :
    health_check_duration healthEnvOk = 12 ∧
    specConcurrentAggregateDuration 100 healthEnvOk.db_probe_duration
        healthEnvOk.service_probe_duration = 7 ∧
    ¬ health_check_duration healthEnvOk ≤
        specConcurrentAggregateDuration 100 healthEnvOk.db_probe_duration
          healthEnvOk.service_probe_duration ∧
    databaseFieldOf healthEnvOk.db_check = "not_available: db down" := by
  refine ⟨by decide, by decide, by decide, by decide⟩

/-- C9 (amended): the two health probes are awaited sequentially with
no timeout, so whenever both take time, the handler's probe phase takes
strictly longer than a concurrent aggregation bounded by any per-probe
timeout would — a hanging probe stalls the whole health check — and no
probe outcome is ever reported as unknown-timeout. -/
theorem health_probes_sequential_unbounded (henv : HealthEnv) (timeout : Nat)
    (h1 : henv.enterprise_available = true)
    (h2 : 0 < henv.db_probe_duration)
    (h3 : 0 < henv.service_probe_duration) :
    specConcurrentAggregateDuration timeout henv.db_probe_duration
        henv.service_probe_duration < health_check_duration henv ∧
    (∀ r, databaseFieldOf r ≠ "unknown-timeout") := by
  constructor
  · have hdur : health_check_duration henv =
        henv.db_probe_duration + henv.service_probe_duration := by
      simp [health_check_duration, h1]
    have hle : specConcurrentAggregateDuration timeout henv.db_probe_duration
        henv.service_probe_duration ≤
        max henv.db_probe_duration henv.service_probe_duration :=
      max_le_max (min_le_left _ _) (min_le_left _ _)
    have hlt : max henv.db_probe_duration henv.service_probe_duration <
        henv.db_probe_duration + henv.service_probe_duration :=
      Nat.max_lt.mpr ⟨Nat.lt_add_of_pos_right h3, Nat.lt_add_of_pos_left h2⟩
    rw [hdur]
    exact lt_of_le_of_lt hle hlt
  · intro r
    cases r with
    | ok b => cases b <;> decide
    | error e =>
      intro h
      have hdata : ("not_available: " ++ e).data = "unknown-timeout".data :=
        congrArg String.data h
      have hhead : (("not_available: " ++ e).data).head? =
          ("unknown-timeout".data).head? := congrArg List.head? hdata
      have hsome : (some 'n' : Option Char) = some 'u' := hhead
      exact absurd hsome (by decide)

/-- C9 witness: the amended statement at the concrete environment with
probe durations 7 and 5 and a candidate timeout of 100. -/
theorem health_probes_sequential_unbounded_witness :
    specConcurrentAggregateDuration 100 healthEnvOk.db_probe_duration
        healthEnvOk.service_probe_duration < health_check_duration healthEnvOk ∧
    databaseFieldOf (Except.error "hang") ≠ "unknown-timeout" :=
  ⟨(health_probes_sequential_unbounded healthEnvOk 100 rfl (by decide) (by decide)).1,
   (health_probes_sequential_unbounded healthEnvOk 100 rfl (by decide) (by decide)).2
      (Except.error "hang")⟩

/-- C10: with `app.state.start_time` never set, `GET /metrics` answers
with the error payload (its unguarded start-time read raises inside the
catch-all), while `GET /health` guards the same read and reports
`uptime_seconds` as 0 inside a normal report. -/
theorem metrics_unguarded_start_time (environment : String) (env : MetricsEnv)
    (henv : HealthEnv) (s : String)
    (hm : env.start_time = none)
    (he : henv.environment = Except.ok s)
    (hh : henv.start_time = none) :
    (metrics environment env).isSnapshot = false ∧
    health_check henv = HealthResponse.report
      { status := "healthy", timestamp := henv.utcnow, version := "1.0.0",
        environment := s, uptime_seconds := 0,
        database := databaseFieldOf henv.db_check,
        services := servicesFieldOf henv.enterprise_available henv.service_check } := by
  constructor
  · cases env with
    | mk cpu vm du pm pcp nt st now ut =>
      cases cpu with
      | error e => rfl
      | ok c =>
        cases vm with
        | error e => rfl
        | ok m =>
          cases du with
          | error e => rfl
          | ok d =>
            cases pm with
            | error e => rfl
            | ok p =>
              by_cases hd : d.total = 0
              · simp [metrics, metricsBody, hd, MetricsResponse.isSnapshot]
              · cases pcp with
                | error e => simp [metrics, metricsBody, hd, MetricsResponse.isSnapshot]
                | ok q =>
                  cases nt with
                  | error e => simp [metrics, metricsBody, hd, MetricsResponse.isSnapshot]
                  | ok r =>
                    have hst : st = none := hm
                    subst hst
                    simp [metrics, metricsBody, hd, MetricsResponse.isSnapshot]
  · simp [health_check, he, uptimeOf, hh]

/-- C10 witness: concrete environments with `start_time` unset. -/
theorem metrics_unguarded_start_time_witness :
    (metrics "production" metricsEnvNoStart).isSnapshot = false ∧
    health_check healthEnvOk = HealthResponse.report
      { status := "healthy", timestamp := healthEnvOk.utcnow, version := "1.0.0",
        environment := "production", uptime_seconds := 0,
        database := databaseFieldOf healthEnvOk.db_check,
        services := servicesFieldOf healthEnvOk.enterprise_available healthEnvOk.service_check } :=
  metrics_unguarded_start_time "production" metricsEnvNoStart healthEnvOk "production"
    rfl rfl rfl

end AichatbotMain
